import Mathlib

/-!
Shallow embedding of the classification, size-estimation, credential-rotation
and quota-wait logic of the migrations inventory scripts
(azure/collect-ado-inventory.py and bitbucket/inventory_gh_given_repo.py).

HTTP traffic is modelled by passing each request outcome as an explicit
parameter of type `Resp`: either the requests library raised an exception
(`Resp.exc`) or a response arrived with a status code and an already-parsed
JSON body (`Resp.status`).  Timestamps are modelled as integers (a parsed
datetime); a field that Python leaves as `None` is an `Option`.
-/

namespace Migrations

/-- Outcome of one HTTP request: an exception from the requests library,
or a response carrying a status code and a parsed body. -/
inductive Resp (α : Type) where
  | exc (msg : String) : Resp α
  | status (code : Nat) (body : α) : Resp α

/-- True when the request did not come back as a 200 response:
either an exception was raised or the status code differs from 200. -/
def resp_failed {α : Type} : Resp α → Bool
  | .exc _ => true
  | .status code _ => code != 200

/-- True when the request raised an exception in the requests library. -/
def resp_exc {α : Type} : Resp α → Bool
  | .exc _ => true
  | .status _ _ => false

/-- One entry of a TFVC items listing: the isFolder flag and the size field
(Python reads it with get with default 0, so a missing size is 0). -/
structure TfvcItem where
  isFolder : Bool := false
  size : Nat := 0

/-- One TFVC changeset; createdDate is the parsed creation timestamp,
none when the field is absent or fails to parse. -/
structure Changeset where
  createdDate : Option Int := none

/-- Result record of check_tfvc_system_inline. -/
structure TfvcInfo where
  has_content : Bool := false
  item_count : Nat := 0
  total_size : Nat := 0
  changesets : Nat := 0
  last_activity : Option Int := none
  error : Option String := none

/-- One entry of a git items listing: gitObjectType, the size field
(0 when absent) and the path field (empty string when absent). -/
structure GitItem where
  gitObjectType : String := ""
  size : Nat := 0
  path : String := ""

/-- Result record of analyze_git_repo_inline for one repository. -/
structure GitRepoInfo where
  name : String := "Unknown"
  has_content : Bool := false
  file_count : Nat := 0
  size_bytes : Nat := 0
  last_commit : Option Int := none

/-- Result record of check_git_system_inline. -/
structure GitInfo where
  has_content : Bool := false
  repo_count : Nat := 0
  total_files : Nat := 0
  total_size : Nat := 0
  last_activity : Option Int := none
  repos : List GitRepoInfo := []
  error : Option String := none

/-- The three requests analyze_git_repo_inline issues for one repository:
the repository metadata request (body is the optional size field), the
items listing, and the commits request (body is the parsed author date of
the first returned commit, none when there is no commit, no date, or the
date fails to parse). -/
structure RepoProbe where
  name : String := "Unknown"
  repoResp : Resp (Option Nat)
  itemsResp : Resp (List GitItem)
  commitsResp : Resp (Option Int)

/-- Embedding of check_tfvc_system_inline: the items request is issued
first; a 200 response with a nonempty listing sets has_content and counts
the non-folder items and their sizes.  Only when no content was found is
the changesets request issued; a 200 response with a nonempty list sets
has_content and the last-activity date.  A requests exception anywhere is
caught at the function boundary and stored in the error field. -/
def check_tfvc_system_inline (itemsResp : Resp (List TfvcItem))
    (changesetsResp : Resp (List Changeset)) : TfvcInfo :=
  match itemsResp with
  | .exc e => { error := some e }
  | .status code items =>
    let info : TfvcInfo :=
      if code = 200 ∧ items.isEmpty = false then
        { has_content := true
          item_count := items.countP (fun it => !it.isFolder)
          total_size := items.foldl (fun a it => if it.isFolder then a else a + it.size) 0 }
      else {}
    if info.has_content then info
    else
      match changesetsResp with
      | .exc e => { info with error := some e }
      | .status code2 cs =>
        if code2 = 200 ∧ cs.isEmpty = false then
          { info with
            has_content := true
            changesets := cs.length
            last_activity := cs.head?.bind (fun c => c.createdDate) }
        else info

/-- Embedding of analyze_git_repo_inline: three requests in sequence inside
one try block, so an exception at a step keeps the fields set by the
earlier steps; each non-200 response leaves the corresponding fields at
their defaults.  A listing with blobs sets file_count to the blob count;
a listing with no blobs but more than one item still counts as content
with file_count equal to the full item count. -/
def analyze_git_repo_inline (p : RepoProbe) : GitRepoInfo :=
  let base : GitRepoInfo := { name := p.name }
  match p.repoResp with
  | .exc _ => base
  | .status code sz =>
    let b1 := if code = 200 then { base with size_bytes := sz.getD 0 } else base
    match p.itemsResp with
    | .exc _ => b1
    | .status code2 items =>
      let b2 :=
        if code2 = 200 then
          let fc := items.countP (fun it => it.gitObjectType == "blob")
          if 0 < fc then { b1 with has_content := true, file_count := fc }
          else if 1 < items.length then { b1 with has_content := true, file_count := items.length }
          else b1
        else b1
      match p.commitsResp with
      | .exc _ => b2
      | .status code3 d =>
        if code3 = 200 then { b2 with last_commit := d } else b2

/-- Fold of the latest-activity tracking loop in check_git_system_inline:
a last_commit replaces the accumulator when the accumulator is none or the
commit is strictly later. -/
def latest_activity_fold (acc : Option Int) (r : GitRepoInfo) : Option Int :=
  match r.last_commit, acc with
  | some c, none => some c
  | some c, some l => if c > l then some c else some l
  | none, _ => acc

/-- Embedding of check_git_system_inline: the repositories listing is the
one request issued directly by the function; the first three repositories
are analyzed, and only those with content contribute to the totals.  A
requests exception on the listing is caught and stored in the error
field. -/
def check_git_system_inline (reposResp : Resp (List RepoProbe)) : GitInfo :=
  match reposResp with
  | .exc e => { error := some e }
  | .status code repos =>
    if code = 200 ∧ repos.isEmpty = false then
      let analyzed := (repos.take 3).map analyze_git_repo_inline
      let withContent := analyzed.filter (fun r => r.has_content)
      if withContent.isEmpty = false then
        { has_content := true
          repo_count := withContent.length
          total_files := withContent.foldl (fun a r => a + r.file_count) 0
          total_size := withContent.foldl (fun a r => a + r.size_bytes) 0
          last_activity := withContent.foldl latest_activity_fold none
          repos := withContent }
      else {}
    else {}

/-- Embedding of the git branch of get_system_size_estimate: the measured
total size when positive, else the per-repository sum where a repository
with no size contributes 5 KB per file, else 5 KB per file over
total_files, else 0. -/
def get_system_size_estimate_git (g : GitInfo) : Nat :=
  if 0 < g.total_size then g.total_size
  else if g.repos.isEmpty = false then
    g.repos.foldl
      (fun a r => if 0 < r.size_bytes then a + r.size_bytes else a + r.file_count * 5 * 1024) 0
  else if 0 < g.total_files then g.total_files * 5 * 1024
  else 0

/-- Embedding of the tfvc branch of get_system_size_estimate: the measured
total size when positive, else 10 KB per item, else 0. -/
def get_system_size_estimate_tfvc (t : TfvcInfo) : Nat :=
  if 0 < t.total_size then t.total_size
  else if 0 < t.item_count then t.item_count * 10 * 1024
  else 0

/-- Size comparison stage of determine_primary_version_control_inline:
with both estimates positive the strictly larger wins; with exactly one
positive that side wins; equal or both zero decides nothing. -/
def size_stage (tfvc_size git_size : Nat) : Option String :=
  if 0 < tfvc_size ∧ 0 < git_size then
    if git_size > tfvc_size then some "GIT"
    else if tfvc_size > git_size then some "TFVC"
    else none
  else if 0 < git_size then some "GIT"
  else if 0 < tfvc_size then some "TFVC"
  else none

/-- Truthiness-and-comparison test used for recent activity: a present
last_activity strictly later than the two-years-ago cutoff. -/
def is_recent (last_activity : Option Int) (cutoff : Int) : Bool :=
  match last_activity with
  | none => false
  | some a => a > cutoff

/-- Recency stage of determine_primary_version_control_inline, with the
two-years-ago cutoff passed in explicitly: one recent side wins outright;
when both sides are recent the strictly more recent last_activity wins
(TFVC when equal); when neither is recent nothing is decided. -/
def recency_stage (t : TfvcInfo) (g : GitInfo) (cutoff : Int) : Option String :=
  let tfvc_recent := is_recent t.last_activity cutoff
  let git_recent := is_recent g.last_activity cutoff
  if git_recent ∧ ¬ tfvc_recent then some "GIT"
  else if tfvc_recent ∧ ¬ git_recent then some "TFVC"
  else if git_recent ∧ tfvc_recent then
    if g.last_activity.getD 0 > t.last_activity.getD 0 then some "GIT" else some "TFVC"
  else none

/-- Content-volume default stage of determine_primary_version_control_inline:
git wins on more files; TFVC wins only with more than twice the git file
count; otherwise git is the default. -/
def content_stage (t : TfvcInfo) (g : GitInfo) : String :=
  if g.total_files > t.item_count then "GIT"
  else if t.item_count > g.total_files * 2 then "TFVC"
  else "GIT"

/-- Embedding of determine_primary_version_control_inline: size comparison
first, then recency, then content volume, each later stage reached only
when the earlier one decided nothing. -/
def determine_primary_version_control_inline (t : TfvcInfo) (g : GitInfo)
    (cutoff : Int) : String :=
  match size_stage (get_system_size_estimate_tfvc t) (get_system_size_estimate_git g) with
  | some r => r
  | none =>
    match recency_stage t g cutoff with
    | some r => r
    | none => content_stage t g

/-- Wiki half of check_other_storage_types_inline: a 200 response with a
nonempty wikis list gives WIKI, anything else (exception included, caught
with pass) gives FILE_STORAGE. -/
def check_wiki_storage (wikiResp : Resp (List Unit)) : String :=
  match wikiResp with
  | .exc _ => "FILE_STORAGE"
  | .status code wikis =>
    if code = 200 ∧ wikis.isEmpty = false then "WIKI" else "FILE_STORAGE"

/-- Embedding of check_other_storage_types_inline: artifact feeds are
probed first, then wikis, each request exception caught with pass; the
exhaustive fallback is FILE_STORAGE. -/
def check_other_storage_types_inline (artifactsResp wikiResp : Resp (List Unit)) : String :=
  match artifactsResp with
  | .exc _ => check_wiki_storage wikiResp
  | .status code feeds =>
    if code = 200 ∧ feeds.isEmpty = false then "ARTIFACTS" else check_wiki_storage wikiResp

/-- True when a lower-priority storage probe found something: a 200
response with a nonempty listing. -/
def storage_present (r : Resp (List Unit)) : Bool :=
  match r with
  | .exc _ => false
  | .status code l => code = 200 && !l.isEmpty

/-- Embedding of the decision logic of get_project_version_control_type,
as a function of the two probe results (and of the inputs the lower
stages consume): both sides with content go to the primary determination,
exactly one side with content wins outright, and no content at all goes
to the other-storage probe. -/
def get_project_version_control_type (t : TfvcInfo) (g : GitInfo) (cutoff : Int)
    (artifactsResp wikiResp : Resp (List Unit)) : String :=
  if t.has_content ∧ g.has_content then
    determine_primary_version_control_inline t g cutoff
  else if g.has_content then "GIT"
  else if t.has_content then "TFVC"
  else check_other_storage_types_inline artifactsResp wikiResp

/-- Embedding of format_size_in_kb on a natural byte count: bytes are
converted to KB rounded up (math.ceil), and a zero count prints as 0. -/
def format_size_in_kb (size_bytes : Nat) : String :=
  if 0 < size_bytes then toString ((size_bytes + 1023) / 1024) else "0"

/-- Heuristic overhead model of get_repo_statistics: measured content
below 10000 bytes is multiplied by 50 with a 40 KB floor; larger content
is multiplied by 8. -/
def estimated_repo_size (calculated_total_size : Nat) : Nat :=
  if calculated_total_size < 10000 then max (calculated_total_size * 50) (40 * 1024)
  else calculated_total_size * 8

/-- Sum of the per-file sizes present in the listing metadata, as
accumulated by the first measuring loop of get_repo_statistics. -/
def metadata_total (files : List GitItem) : Nat :=
  files.foldl (fun a f => if 0 < f.size then a + f.size else a) 0

/-- Largest per-file size present in the listing metadata. -/
def metadata_largest (files : List GitItem) : Nat :=
  files.foldl (fun a f => if 0 < f.size then max a f.size else a) 0

/-- Number of files whose listing metadata carries a positive size
(the sizes_from_metadata counter). -/
def metadata_count (files : List GitItem) : Nat :=
  files.countP (fun f => 0 < f.size)

/-- Content-Length probing loop of get_repo_statistics, modelled with two
oracles: headLen gives the Content-Length obtained by the HEAD request for
a file (none when the header is missing or the request fails), getLen the
one obtained by the fallback GET (tried only while fewer than 5 files have
been measured).  Files with an empty path are skipped.  Returns the
accumulated total and largest size, starting from the metadata stage
values. -/
def content_length_probe (headLen getLen : GitItem → Option Nat)
    (files : List GitItem) (total0 largest0 : Nat) : Nat × Nat :=
  let r := files.foldl
    (fun (acc : Nat × Nat × Nat) f =>
      if f.path = "" then acc
      else
        match headLen f with
        | some n => (acc.1 + n, max acc.2.1 n, acc.2.2 + 1)
        | none =>
          if acc.2.2 < 5 then
            match getLen f with
            | some n => (acc.1 + n, max acc.2.1 n, acc.2.2 + 1)
            | none => acc
          else acc)
    (total0, largest0, 0)
  (r.1, r.2.1)

/-- Exported statistics record of get_repo_statistics (string fields, as
the Python dict holds formatted strings). -/
structure RepoStats where
  total_size : String
  file_count : String
  largest_file_size : String

/-- Embedding of get_repo_statistics: the repository metadata request
supplies the optional authoritative size; a 200 items listing is filtered
to blobs, measured first from listing metadata, then (only when no
metadata size was found and there are at most 50 files) by Content-Length
probing, then estimated from the API size or 1 KB per file.  The exported
total size prefers the authoritative API size verbatim, then the measured
content size inflated by the estimated_repo_size overhead model, then 3 KB
per file.  A requests exception anywhere degrades all fields to 0, and a
failed items listing keeps the API size when positive. -/
def get_repo_statistics (repoResp : Resp (Option Nat)) (itemsResp : Resp (List GitItem))
    (headLen getLen : GitItem → Option Nat) : RepoStats :=
  match repoResp with
  | .exc _ => ⟨"0", "0", "0"⟩
  | .status rc rsz =>
    let repo_api_size : Option Nat := if rc = 200 then rsz else none
    let api := repo_api_size.getD 0
    match itemsResp with
    | .exc _ => ⟨"0", "0", "0"⟩
    | .status ic items =>
      if ic = 200 then
        let files := items.filter (fun it => it.gitObjectType == "blob")
        let file_count := files.length
        let t1 := metadata_total files
        let l1 := metadata_largest files
        let p :=
          if 0 < file_count ∧ metadata_count files = 0 ∧ file_count ≤ 50 then
            content_length_probe headLen getLen files t1 l1
          else (t1, l1)
        let q :=
          if 0 < file_count ∧ p.1 = 0 then
            if 0 < api then (api, max 1024 (api / file_count))
            else (file_count * 1024, 1024 * 2)
          else p
        let total_size_str :=
          if 0 < api then format_size_in_kb api
          else if 0 < q.1 then format_size_in_kb (estimated_repo_size q.1)
          else if 0 < file_count then format_size_in_kb (file_count * 3072)
          else "0"
        ⟨total_size_str, toString file_count, format_size_in_kb q.2⟩
      else
        if 0 < api then ⟨format_size_in_kb api, "0", "0"⟩
        else ⟨"0", "0", "0"⟩

/-- Index into the token pool used by the n-th call to get_pat (calls
numbered from 0).  The Python function stores a static index starting at
-1 and executes index := (index + 1) % K before returning, so call 0 uses
(-1 + 1) % K = 0 % K and every later call advances the stored index by one
modulo the pool size. -/
def get_pat_index (K : Nat) : Nat → Nat
  | 0 => 0 % K
  | n + 1 => (get_pat_index K n + 1) % K

/-- Embedding of get_pat: the n-th call returns the pool element at the
rotating index. -/
def get_pat_call (pats : List String) (n : Nat) : Option String :=
  pats.get? (get_pat_index pats.length n)

/-- Observable step of wait_for_rate_limit: a rate-limit consultation
(the only API request the function issues, returning the reported
remaining count and reset timestamp) or a sleep until a reported reset
timestamp. -/
inductive QAction where
  | consult (remaining reset : Nat) : QAction
  | sleepUntil (reset : Nat) : QAction
deriving DecidableEq

/-- Embedding of the wait_for_rate_limit loop.  The k-th call to
get_remaining_api_calls returns readings k.  Each iteration consults the
quota in the while condition; when the remaining count is below 10 it
consults again for the reset timestamp, sleeps until that timestamp, and
loops.  The loop body is given explicit fuel since the Python loop need
not terminate; the result is the trace of actions when the loop exits
within the fuel. -/
def wait_loop (readings : Nat → Nat × Nat) : Nat → Nat → Option (List QAction)
  | 0, _ => none
  | fuel + 1, k =>
    if (readings k).1 < 10 then
      match wait_loop readings fuel (k + 2) with
      | none => none
      | some acts =>
        some (QAction.consult (readings k).1 (readings k).2 ::
              QAction.consult (readings (k + 1)).1 (readings (k + 1)).2 ::
              QAction.sleepUntil (readings (k + 1)).2 :: acts)
    else some [QAction.consult (readings k).1 (readings k).2]

/-- Embedding of wait_for_rate_limit: run the loop from the first
consultation. -/
def wait_for_rate_limit (readings : Nat → Nat × Nat) (fuel : Nat) : Option (List QAction) :=
  wait_loop readings fuel 0

/-- Reference trace of i blocked iterations starting at reading k followed
by the final passing consultation: each blocked iteration consults twice
and sleeps until the reset timestamp reported by its second
consultation. -/
def traceFrom (readings : Nat → Nat × Nat) (k : Nat) : Nat → List QAction
  | 0 => [QAction.consult (readings k).1 (readings k).2]
  | i + 1 =>
    QAction.consult (readings k).1 (readings k).2 ::
    QAction.consult (readings (k + 1)).1 (readings (k + 1)).2 ::
    QAction.sleepUntil (readings (k + 1)).2 :: traceFrom readings (k + 2) i

/-! Helper lemmas shared by the claim theorems. -/

/-- The rotating index of get_pat is plain round robin: the n-th call uses
pool position n mod K. -/
theorem get_pat_index_eq_mod (K : Nat) (hK : 0 < K) :
    ∀ n, get_pat_index K n = n % K := by
  intro n
  induction n with
  | zero => rfl
  | succ m ih =>
    show (get_pat_index K m + 1) % K = (m + 1) % K
    rw [ih, Nat.add_mod m 1 K]
    rcases Nat.lt_or_ge 1 K with h | h
    · rw [Nat.mod_eq_of_lt h]
    · have hK1 : K = 1 := by omega
      subst hK1
      simp [Nat.mod_one]

/-- Counting the naturals below m * K congruent to j mod K gives m. -/
theorem card_range_filter_mod (K j m : Nat) (hj : j < K) :
    ((Finset.range (m * K)).filter (fun n => n % K = j)).card = m := by
  have hK : 0 < K := by omega
  have himg : (Finset.range (m * K)).filter (fun n => n % K = j) =
      (Finset.range m).image (fun q => q * K + j) := by
    ext n
    simp only [Finset.mem_filter, Finset.mem_range, Finset.mem_image]
    constructor
    · rintro ⟨hlt, hmod⟩
      refine ⟨n / K, ?_, ?_⟩
      · exact (Nat.div_lt_iff_lt_mul hK).mpr hlt
      · rw [← hmod, Nat.mul_comm]
        exact Nat.div_add_mod n K
    · rintro ⟨q, hq, rfl⟩
      constructor
      · have h1 : q + 1 ≤ m := hq
        calc q * K + j < (q + 1) * K := by nlinarith
          _ ≤ m * K := Nat.mul_le_mul_right K h1
      · rw [Nat.mul_comm, Nat.mul_add_mod]
        exact Nat.mod_eq_of_lt hj
  rw [himg, Finset.card_image_of_injective _ ?_, Finset.card_range]
  intro a b hab
  dsimp only at hab
  exact Nat.eq_of_mul_eq_mul_right hK (Nat.add_right_cancel hab)

/-- C5: in the heuristic-multiplier stage, measured content strictly below
the 10000-byte threshold and above zero is estimated as
max (content * 50) (40 * 1024), hence always at least the fixed 40 KB
minimum footprint; content at or above the threshold is multiplied by the
smaller factor 8. -/
theorem heuristic_multiplier_bounds (c : Nat) :
    (0 < c → c < 10000 →
      estimated_repo_size c = max (c * 50) (40 * 1024) ∧
      40 * 1024 ≤ estimated_repo_size c) ∧
    (10000 ≤ c → estimated_repo_size c = c * 8) := by
  constructor
  · intro _ hlt
    unfold estimated_repo_size
    rw [if_pos hlt]
    exact ⟨rfl, le_max_right _ _⟩
  · intro hge
    unfold estimated_repo_size
    rw [if_neg (by omega)]

/-- Witness for heuristic_multiplier_bounds at 10 bytes of content. -/
theorem heuristic_multiplier_bounds_witness :
    0 < 10 ∧ 10 < 10000 ∧ estimated_repo_size 10 = max (10 * 50) (40 * 1024) ∧
      40 * 1024 ≤ estimated_repo_size 10 :=
  ⟨by decide, by decide, (heuristic_multiplier_bounds 10).1 (by decide) (by decide)⟩

/-- C1: when exactly one of the two probe results has content, the
classifier returns that side directly (GIT when only git has content,
TFVC when only TFVC has content), for every value of the remaining
fields and of the lower-priority probe inputs. -/
theorem classify_single_content (t : TfvcInfo) (g : GitInfo) (cutoff : Int)
    (aR wR : Resp (List Unit)) (h : t.has_content ≠ g.has_content) :
    get_project_version_control_type t g cutoff aR wR =
      if g.has_content then "GIT" else "TFVC" := by
  unfold get_project_version_control_type
  cases ht : t.has_content <;> cases hg : g.has_content <;> simp_all

/-- Witness for classify_single_content with only git content. -/
theorem classify_single_content_witness :
    get_project_version_control_type {} { has_content := true } 0 (.exc "a") (.exc "b") =
      "GIT" := by
  have h := classify_single_content {} { has_content := true } 0 (.exc "a") (.exc "b")
    (by decide)
  exact h

/-- C7: get_pat is deterministic round robin from pool position 0: the
n-th call returns the element at position n mod K, the first call returns
position 0, the stored index advances by one position modulo K on every
call, and over 3 K calls each pool position is used exactly 3 times. -/
theorem get_pat_round_robin (pats : List String) (hK : 0 < pats.length) :
    (∀ n, get_pat_call pats n = pats.get? (n % pats.length)) ∧
    get_pat_call pats 0 = pats.get? 0 ∧
    (∀ n, get_pat_index pats.length (n + 1) =
      (get_pat_index pats.length n + 1) % pats.length) ∧
    (∀ j, j < pats.length →
      ((Finset.range (3 * pats.length)).filter (fun n => n % pats.length = j)).card = 3) := by
  refine ⟨?_, ?_, fun n => rfl, ?_⟩
  · intro n
    unfold get_pat_call
    rw [get_pat_index_eq_mod _ hK]
  · unfold get_pat_call
    rw [get_pat_index_eq_mod _ hK, Nat.zero_mod]
  · intro j hj
    exact card_range_filter_mod pats.length j 3 hj

/-- Witness for get_pat_round_robin on a two-token pool. -/
theorem get_pat_round_robin_witness :
    get_pat_call ["a", "b"] 0 = some "a" ∧
    ((Finset.range (3 * (["a", "b"] : List String).length)).filter
      (fun n => n % (["a", "b"] : List String).length = 0)).card = 3 :=
  ⟨((get_pat_round_robin ["a", "b"] (by decide)).2.1).trans rfl,
   (get_pat_round_robin ["a", "b"] (by decide)).2.2.2 0 (by decide)⟩

/-- Size stage with both estimates positive and git strictly larger. -/
theorem size_stage_git_wins (ts gs : Nat) (h1 : 0 < ts) (h2 : 0 < gs) (h : ts < gs) :
    size_stage ts gs = some "GIT" := by
  unfold size_stage
  rw [if_pos ⟨h1, h2⟩, if_pos h]

/-- Size stage with both estimates positive and TFVC strictly larger. -/
theorem size_stage_tfvc_wins (ts gs : Nat) (h1 : 0 < ts) (h2 : 0 < gs) (h : gs < ts) :
    size_stage ts gs = some "TFVC" := by
  unfold size_stage
  rw [if_pos ⟨h1, h2⟩, if_neg (by omega), if_pos h]

/-- Size stage with only the git estimate usable. -/
theorem size_stage_only_git (ts gs : Nat) (h1 : ts = 0) (h2 : 0 < gs) :
    size_stage ts gs = some "GIT" := by
  unfold size_stage
  rw [if_neg (by omega), if_pos h2]

/-- Size stage with only the TFVC estimate usable. -/
theorem size_stage_only_tfvc (ts gs : Nat) (h1 : gs = 0) (h2 : 0 < ts) :
    size_stage ts gs = some "TFVC" := by
  unfold size_stage
  rw [if_neg (by omega), if_neg (by omega), if_pos h2]

/-- Size stage with equal estimates (both zero included) decides nothing. -/
theorem size_stage_none_of_eq (ts gs : Nat) (h : ts = gs) :
    size_stage ts gs = none := by
  subst h
  unfold size_stage
  split_ifs <;> first | rfl | (exfalso; omega)

/-- The size stage always yields none, GIT or TFVC. -/
theorem size_stage_cases (ts gs : Nat) :
    size_stage ts gs = none ∨ size_stage ts gs = some "GIT" ∨
      size_stage ts gs = some "TFVC" := by
  unfold size_stage
  split_ifs <;> simp

/-- The recency stage always yields none, GIT or TFVC. -/
theorem recency_stage_cases (t : TfvcInfo) (g : GitInfo) (c : Int) :
    recency_stage t g c = none ∨ recency_stage t g c = some "GIT" ∨
      recency_stage t g c = some "TFVC" := by
  unfold recency_stage
  cases ht : is_recent t.last_activity c <;> cases hg : is_recent g.last_activity c <;>
    simp [ht, hg]
  split_ifs <;> simp
  all_goals omega

/-- The content stage always yields GIT or TFVC. -/
theorem content_stage_cases (t : TfvcInfo) (g : GitInfo) :
    content_stage t g = "GIT" ∨ content_stage t g = "TFVC" := by
  unfold content_stage
  split_ifs <;> simp

/-- The full primary determination always yields GIT or TFVC. -/
theorem determine_primary_cases (t : TfvcInfo) (g : GitInfo) (c : Int) :
    determine_primary_version_control_inline t g c = "GIT" ∨
      determine_primary_version_control_inline t g c = "TFVC" := by
  unfold determine_primary_version_control_inline
  rcases size_stage_cases (get_system_size_estimate_tfvc t) (get_system_size_estimate_git g)
    with h | h | h <;> rw [h]
  · rcases recency_stage_cases t g c with h2 | h2 | h2 <;> rw [h2]
    · exact content_stage_cases t g
    · left; rfl
    · right; rfl
  · left; rfl
  · right; rfl

/-- The wiki half of the other-storage probe yields WIKI or FILE_STORAGE. -/
theorem check_wiki_storage_cases (wR : Resp (List Unit)) :
    check_wiki_storage wR = "WIKI" ∨ check_wiki_storage wR = "FILE_STORAGE" := by
  rcases wR with e | ⟨code, l⟩
  · right; rfl
  · simp only [check_wiki_storage]
    split_ifs <;> simp

/-- The other-storage probe yields ARTIFACTS, WIKI or FILE_STORAGE. -/
theorem check_other_storage_cases (aR wR : Resp (List Unit)) :
    check_other_storage_types_inline aR wR = "ARTIFACTS" ∨
      check_other_storage_types_inline aR wR = "WIKI" ∨
      check_other_storage_types_inline aR wR = "FILE_STORAGE" := by
  rcases aR with e | ⟨code, l⟩
  · simp only [check_other_storage_types_inline]
    exact Or.inr (check_wiki_storage_cases wR)
  · simp only [check_other_storage_types_inline]
    split_ifs
    · left; rfl
    · exact Or.inr (check_wiki_storage_cases wR)

/-- Unfolding of the presence test on a status response. -/
theorem storage_present_status (code : Nat) (l : List Unit) :
    storage_present (.status code l) = true ↔ (code = 200 ∧ l.isEmpty = false) := by
  simp [storage_present]

/-- A present wiki probe yields WIKI. -/
theorem check_wiki_storage_of_present (wR : Resp (List Unit))
    (h : storage_present wR = true) : check_wiki_storage wR = "WIKI" := by
  rcases wR with e | ⟨code, l⟩
  · simp [storage_present] at h
  · simp only [check_wiki_storage]
    rw [if_pos ((storage_present_status code l).mp h)]

/-- An absent wiki probe yields FILE_STORAGE. -/
theorem check_wiki_storage_of_absent (wR : Resp (List Unit))
    (h : storage_present wR = false) : check_wiki_storage wR = "FILE_STORAGE" := by
  rcases wR with e | ⟨code, l⟩
  · rfl
  · simp only [check_wiki_storage]
    rw [if_neg]
    intro hcond
    rw [(storage_present_status code l).mpr hcond] at h
    exact absurd h (by simp)

/-- A present artifacts probe yields ARTIFACTS. -/
theorem check_other_of_artifacts (aR wR : Resp (List Unit))
    (h : storage_present aR = true) :
    check_other_storage_types_inline aR wR = "ARTIFACTS" := by
  rcases aR with e | ⟨code, l⟩
  · simp [storage_present] at h
  · simp only [check_other_storage_types_inline]
    rw [if_pos ((storage_present_status code l).mp h)]

/-- An absent artifacts probe delegates to the wiki probe. -/
theorem check_other_of_no_artifacts (aR wR : Resp (List Unit))
    (h : storage_present aR = false) :
    check_other_storage_types_inline aR wR = check_wiki_storage wR := by
  rcases aR with e | ⟨code, l⟩
  · rfl
  · simp only [check_other_storage_types_inline]
    rw [if_neg]
    intro hcond
    rw [(storage_present_status code l).mpr hcond] at h
    exact absurd h (by simp)

/-- C2: with both probe results showing content, the size stage of the
primary determination returns the side with the strictly larger usable
estimate, returns the only side with a usable (nonzero) estimate when just
one is usable, and decides nothing when the estimates are equal or both
unusable, in which case evaluation falls through to the recency and
content stages. -/
theorem classify_size_stage (t : TfvcInfo) (g : GitInfo) (cutoff : Int) :
    (0 < get_system_size_estimate_tfvc t → 0 < get_system_size_estimate_git g →
      get_system_size_estimate_tfvc t < get_system_size_estimate_git g →
      determine_primary_version_control_inline t g cutoff = "GIT") ∧
    (0 < get_system_size_estimate_tfvc t → 0 < get_system_size_estimate_git g →
      get_system_size_estimate_git g < get_system_size_estimate_tfvc t →
      determine_primary_version_control_inline t g cutoff = "TFVC") ∧
    (get_system_size_estimate_tfvc t = 0 → 0 < get_system_size_estimate_git g →
      determine_primary_version_control_inline t g cutoff = "GIT") ∧
    (get_system_size_estimate_git g = 0 → 0 < get_system_size_estimate_tfvc t →
      determine_primary_version_control_inline t g cutoff = "TFVC") ∧
    (get_system_size_estimate_tfvc t = get_system_size_estimate_git g →
      size_stage (get_system_size_estimate_tfvc t) (get_system_size_estimate_git g) = none ∧
      determine_primary_version_control_inline t g cutoff =
        (recency_stage t g cutoff).getD (content_stage t g)) := by
  refine ⟨?_, ?_, ?_, ?_, ?_⟩
  · intro h1 h2 h3
    unfold determine_primary_version_control_inline
    rw [size_stage_git_wins _ _ h1 h2 h3]
  · intro h1 h2 h3
    unfold determine_primary_version_control_inline
    rw [size_stage_tfvc_wins _ _ h1 h2 h3]
  · intro h1 h2
    unfold determine_primary_version_control_inline
    rw [size_stage_only_git _ _ h1 h2]
  · intro h1 h2
    unfold determine_primary_version_control_inline
    rw [size_stage_only_tfvc _ _ h1 h2]
  · intro h
    refine ⟨size_stage_none_of_eq _ _ h, ?_⟩
    unfold determine_primary_version_control_inline
    rw [size_stage_none_of_eq _ _ h]
    cases hr : recency_stage t g cutoff <;> simp

/-- Witness for classify_size_stage with git strictly larger. -/
theorem classify_size_stage_witness :
    determine_primary_version_control_inline { total_size := 100 } { total_size := 200 } 0 =
      "GIT" :=
  (classify_size_stage { total_size := 100 } { total_size := 200 } 0).1
    (by decide) (by decide) (by decide)

/-- C3 counterexample: an input where both sides are recent (size stage
inconclusive) on which the recency stage does decide, returning TFVC as
the more recently active side, while the content-volume rule the claim
says should be reached would return GIT. -/
theorem recency_stage_decides_when_both_recent :
    recency_stage
      { has_content := true, item_count := 10, last_activity := some 100 }
      { has_content := true, total_files := 20, last_activity := some 50 } 0 = some "TFVC" ∧
    size_stage
      (get_system_size_estimate_tfvc
        { has_content := true, item_count := 10, last_activity := some 100 })
      (get_system_size_estimate_git
        { has_content := true, total_files := 20, last_activity := some 50 }) = none ∧
    content_stage { has_content := true, item_count := 10, last_activity := some 100 }
      { has_content := true, total_files := 20, last_activity := some 50 } = "GIT" ∧
    determine_primary_version_control_inline
      { has_content := true, item_count := 10, last_activity := some 100 }
      { has_content := true, total_files := 20, last_activity := some 50 } 0 = "TFVC" := by
  refine ⟨by decide, by decide, by decide, by decide⟩

/-- C3 amended: in the recency tie-break (reached when the size stage is
inconclusive), a candidate with lastActivity inside the trailing window
beats one without; when neither is recent the stage decides nothing and
evaluation falls through to the content-volume rule; but when both are
recent the stage does decide, returning the side with the strictly more
recent lastActivity (TFVC on equality). -/
theorem classify_recency_stage (t : TfvcInfo) (g : GitInfo) (cutoff : Int)
    (hsize : size_stage (get_system_size_estimate_tfvc t)
      (get_system_size_estimate_git g) = none) :
    (is_recent g.last_activity cutoff = true → is_recent t.last_activity cutoff = false →
      recency_stage t g cutoff = some "GIT" ∧
      determine_primary_version_control_inline t g cutoff = "GIT") ∧
    (is_recent t.last_activity cutoff = true → is_recent g.last_activity cutoff = false →
      recency_stage t g cutoff = some "TFVC" ∧
      determine_primary_version_control_inline t g cutoff = "TFVC") ∧
    (is_recent g.last_activity cutoff = true → is_recent t.last_activity cutoff = true →
      recency_stage t g cutoff =
        some (if g.last_activity.getD 0 > t.last_activity.getD 0 then "GIT" else "TFVC")) ∧
    (is_recent g.last_activity cutoff = false → is_recent t.last_activity cutoff = false →
      recency_stage t g cutoff = none ∧
      determine_primary_version_control_inline t g cutoff = content_stage t g) := by
  have hdp : ∀ r, recency_stage t g cutoff = r →
      determine_primary_version_control_inline t g cutoff =
        (r.getD (content_stage t g)) := by
    intro r hr
    unfold determine_primary_version_control_inline
    rw [hsize]
    dsimp only
    rw [hr]
    cases r <;> rfl
  refine ⟨?_, ?_, ?_, ?_⟩
  · intro hg ht
    have hr : recency_stage t g cutoff = some "GIT" := by
      unfold recency_stage
      rw [if_pos]
      exact ⟨by simp [hg], by simp [ht]⟩
    exact ⟨hr, hdp _ hr⟩
  · intro ht hg
    have hr : recency_stage t g cutoff = some "TFVC" := by
      unfold recency_stage
      rw [if_neg (by simp [hg]), if_pos ⟨by simp [ht], by simp [hg]⟩]
    exact ⟨hr, hdp _ hr⟩
  · intro hg ht
    unfold recency_stage
    rw [if_neg (by simp [hg, ht]), if_neg (by simp [hg, ht]),
      if_pos ⟨by simp [hg], by simp [ht]⟩]
    split_ifs <;> rfl
  · intro hg ht
    have hr : recency_stage t g cutoff = none := by
      unfold recency_stage
      rw [if_neg (by simp [hg]), if_neg (by simp [ht]), if_neg (by simp [hg])]
    exact ⟨hr, by simpa using hdp _ hr⟩

/-- Witness for classify_recency_stage with only git recent. -/
theorem classify_recency_stage_witness :
    recency_stage {} { last_activity := some 1 } 0 = some "GIT" ∧
    determine_primary_version_control_inline {} { last_activity := some 1 } 0 = "GIT" :=
  (classify_recency_stage {} { last_activity := some 1 } 0 (by decide)).1
    (by decide) (by decide)

/-- C4: with no content on either side the classifier delegates to the
ordered lower-priority probe (ARTIFACTS when feeds are present, else WIKI
when wikis are present, else FILE_STORAGE), and classification is total:
every input receives one of the five backend kinds. -/
theorem classify_no_content_total (t : TfvcInfo) (g : GitInfo) (cutoff : Int)
    (aR wR : Resp (List Unit)) (ht : t.has_content = false) (hg : g.has_content = false) :
    get_project_version_control_type t g cutoff aR wR =
      check_other_storage_types_inline aR wR ∧
    (storage_present aR = true →
      get_project_version_control_type t g cutoff aR wR = "ARTIFACTS") ∧
    (storage_present aR = false → storage_present wR = true →
      get_project_version_control_type t g cutoff aR wR = "WIKI") ∧
    (storage_present aR = false → storage_present wR = false →
      get_project_version_control_type t g cutoff aR wR = "FILE_STORAGE") ∧
    (∀ (t2 : TfvcInfo) (g2 : GitInfo),
      get_project_version_control_type t2 g2 cutoff aR wR ∈
        (["GIT", "TFVC", "ARTIFACTS", "WIKI", "FILE_STORAGE"] : List String)) := by
  have hbase : get_project_version_control_type t g cutoff aR wR =
      check_other_storage_types_inline aR wR := by
    unfold get_project_version_control_type
    simp [ht, hg]
  refine ⟨hbase, ?_, ?_, ?_, ?_⟩
  · intro ha
    rw [hbase]
    exact check_other_of_artifacts aR wR ha
  · intro ha hw
    rw [hbase, check_other_of_no_artifacts aR wR ha]
    exact check_wiki_storage_of_present wR hw
  · intro ha hw
    rw [hbase, check_other_of_no_artifacts aR wR ha]
    exact check_wiki_storage_of_absent wR hw
  · intro t2 g2
    unfold get_project_version_control_type
    split_ifs
    · rcases determine_primary_cases t2 g2 cutoff with h | h <;> simp [h]
    · simp
    · simp
    · rcases check_other_storage_cases aR wR with h | h | h <;> simp [h]

/-- Witness for classify_no_content_total with artifact feeds present. -/
theorem classify_no_content_total_witness :
    get_project_version_control_type {} {} 0 (.status 200 [()]) (.exc "w") = "ARTIFACTS" :=
  ((classify_no_content_total {} {} 0 (.status 200 [()]) (.exc "w") rfl rfl).2).1 (by decide)

/-- C10: in the per-repository git analysis, a 200 items listing with zero
blobs but more than one item still counts as content, with file_count set
to the full item count (folders included); zero blobs with at most one
item yields no content. -/
theorem analyze_git_repo_structure_only (name : String) (rc : Nat) (sz : Option Nat)
    (items : List GitItem) (cR : Resp (Option Int))
    (hblob : items.countP (fun it => it.gitObjectType == "blob") = 0) :
    (1 < items.length →
      (analyze_git_repo_inline ⟨name, .status rc sz, .status 200 items, cR⟩).has_content =
        true ∧
      (analyze_git_repo_inline ⟨name, .status rc sz, .status 200 items, cR⟩).file_count =
        items.length) ∧
    (items.length ≤ 1 →
      (analyze_git_repo_inline ⟨name, .status rc sz, .status 200 items, cR⟩).has_content =
        false) := by
  constructor
  · intro hlen
    rcases cR with e | ⟨code3, d⟩ <;>
      by_cases hrc : rc = 200 <;>
      simp [analyze_git_repo_inline, hblob, hrc, hlen] <;>
      split_ifs <;> simp_all
  · intro hlen
    have hlen2 : ¬ 1 < items.length := by omega
    rcases cR with e | ⟨code3, d⟩ <;>
      by_cases hrc : rc = 200 <;>
      simp [analyze_git_repo_inline, hblob, hrc, hlen2] <;>
      split_ifs <;> simp_all

/-- Witness for analyze_git_repo_structure_only on a two-folder listing. -/
theorem analyze_git_repo_structure_only_witness :
    (analyze_git_repo_inline ⟨"r", .status 200 none,
      .status 200 [{ gitObjectType := "tree" }, { gitObjectType := "tree" }],
      .exc "x"⟩).has_content = true ∧
    (analyze_git_repo_inline ⟨"r", .status 200 none,
      .status 200 [{ gitObjectType := "tree" }, { gitObjectType := "tree" }],
      .exc "x"⟩).file_count = 2 :=
  (analyze_git_repo_structure_only "r" 200 none
    [{ gitObjectType := "tree" }, { gitObjectType := "tree" }] (.exc "x")
    (by decide)).1 (by decide)

/-- C8: the backend probes never raise on transport or permission
failure: when every request a probe issues either raises in the requests
library or returns a non-200 status, the probe still returns a result
record with has_content false, whose error field is set exactly when a
request exception occurred, and an exception message is preserved
verbatim. -/
theorem probe_failure_no_raise (iR : Resp (List TfvcItem)) (cR : Resp (List Changeset))
    (rR : Resp (List RepoProbe)) (hi : resp_failed iR = true) (hc : resp_failed cR = true)
    (hr : resp_failed rR = true) :
    (check_tfvc_system_inline iR cR).has_content = false ∧
    (check_tfvc_system_inline iR cR).error.isSome = (resp_exc iR || resp_exc cR) ∧
    (check_git_system_inline rR).has_content = false ∧
    (check_git_system_inline rR).error.isSome = resp_exc rR ∧
    (∀ (e : String) (cR2 : Resp (List Changeset)),
      (check_tfvc_system_inline (.exc e) cR2).error = some e) ∧
    (∀ e : String, (check_git_system_inline (.exc e)).error = some e) := by
  have htf : (check_tfvc_system_inline iR cR).has_content = false ∧
      (check_tfvc_system_inline iR cR).error.isSome = (resp_exc iR || resp_exc cR) := by
    rcases iR with e | ⟨code, items⟩
    · exact ⟨rfl, by simp [check_tfvc_system_inline, resp_exc]⟩
    · have hcode : ¬ code = 200 := by simpa [resp_failed] using hi
      rcases cR with e2 | ⟨code2, cs⟩
      · simp [check_tfvc_system_inline, resp_exc, hcode]
      · have hcode2 : ¬ code2 = 200 := by simpa [resp_failed] using hc
        simp [check_tfvc_system_inline, resp_exc, hcode, hcode2]
  have hgit : (check_git_system_inline rR).has_content = false ∧
      (check_git_system_inline rR).error.isSome = resp_exc rR := by
    rcases rR with e | ⟨code, repos⟩
    · exact ⟨rfl, by simp [check_git_system_inline, resp_exc]⟩
    · have hcode : ¬ code = 200 := by simpa [resp_failed] using hr
      simp [check_git_system_inline, resp_exc, hcode]
  exact ⟨htf.1, htf.2, hgit.1, hgit.2, fun e cR2 => rfl, fun e => rfl⟩

/-- Witness for probe_failure_no_raise: an exception on the TFVC items
request with a 403 changesets response, and a 500 on the git repositories
listing. -/
theorem probe_failure_no_raise_witness :
    (check_tfvc_system_inline (.exc "down") (.status 403 [])).has_content = false ∧
    (check_tfvc_system_inline (.exc "down") (.status 403 [])).error = some "down" ∧
    (check_git_system_inline (.status 500 [])).has_content = false :=
  ⟨(probe_failure_no_raise (.exc "down") (.status 403 []) (.status 500 []) rfl rfl rfl).1,
   (probe_failure_no_raise (.exc "down") (.status 403 []) (.status 500 [])
     rfl rfl rfl).2.2.2.2.1 "down" (.status 403 []),
   (probe_failure_no_raise (.exc "down") (.status 403 []) (.status 500 []) rfl rfl rfl).2.2.1⟩

/-- A fold that adds only positive sizes returns its accumulator when no
size is positive. -/
theorem metadata_total_aux (files : List GitItem) (a : Nat)
    (h : ∀ f ∈ files, ¬ 0 < f.size) :
    files.foldl (fun a f => if 0 < f.size then a + f.size else a) a = a := by
  induction files generalizing a with
  | nil => rfl
  | cons f fs ih =>
    have hf : ¬ 0 < f.size := h f (by simp)
    simp only [List.foldl_cons, if_neg hf]
    exact ih a (fun x hx => h x (by simp [hx]))

/-- When no file carries a metadata size the metadata sum is zero. -/
theorem metadata_count_zero_total (files : List GitItem)
    (h : metadata_count files = 0) : metadata_total files = 0 := by
  unfold metadata_total
  apply metadata_total_aux
  intro f hf
  have h2 := List.countP_eq_zero.mp h f hf
  simpa using h2

/-- A positive metadata sum forces a positive sizes_from_metadata
counter. -/
theorem metadata_total_pos_count (files : List GitItem)
    (h : 0 < metadata_total files) : metadata_count files ≠ 0 := by
  intro hc
  rw [metadata_count_zero_total files hc] at h
  exact Nat.lt_irrefl 0 h

/-- A positive metadata sum forces a nonempty file list. -/
theorem metadata_total_pos_length (files : List GitItem)
    (h : 0 < metadata_total files) : 0 < files.length := by
  cases files with
  | nil => simp [metadata_total] at h
  | cons f fs => simp

/-- C6 counterexample: a repository with no authoritative API size and two
blobs of 1024 metadata bytes each exports Total Repo Size (KB) 100 (the
overhead-inflated figure), not 2 = ceil(2048 / 1024) as the verbatim
summed-metadata reading of the claim demands. -/
theorem total_size_metadata_not_verbatim :
    (get_repo_statistics (.status 200 none)
      (.status 200 [{ gitObjectType := "blob", size := 1024 },
        { gitObjectType := "blob", size := 1024 }])
      (fun _ => none) (fun _ => none)).total_size = "100" ∧
    toString ((1024 + 1024 + 1023) / 1024) = "2" ∧ ("100" : String) ≠ "2" := by
  refine ⟨rfl, rfl, by decide⟩

/-- C6 amended: a repository with authoritative API size 1048576 bytes
exports Total Repo Size (KB) 1024; with no authoritative size and a
positive summed-metadata content size s, the export is
format_size_in_kb (estimated_repo_size s): the sum is inflated by the
Git-overhead heuristic before the KB conversion, not used verbatim. -/
theorem total_size_stages (items : List GitItem) (headLen getLen : GitItem → Option Nat)
    (hm : 0 < metadata_total (items.filter (fun it => it.gitObjectType == "blob"))) :
    (get_repo_statistics (.status 200 (some 1048576)) (.status 200 items) headLen
      getLen).total_size = "1024" ∧
    (get_repo_statistics (.status 200 none) (.status 200 items) headLen
      getLen).total_size =
      format_size_in_kb (estimated_repo_size
        (metadata_total (items.filter (fun it => it.gitObjectType == "blob")))) := by
  constructor
  · simp only [get_repo_statistics]
    norm_num
    rfl
  · simp only [get_repo_statistics]
    generalize hf : items.filter (fun it => it.gitObjectType == "blob") = files at hm ⊢
    have hcount := metadata_total_pos_count files hm
    have hlen := metadata_total_pos_length files hm
    have hA : ¬(0 < files.length ∧ metadata_count files = 0 ∧ files.length ≤ 50) := by
      rintro ⟨-, h2, -⟩
      exact hcount h2
    have ht1 : ¬ metadata_total files = 0 := by omega
    have hB : ¬(0 < files.length ∧ metadata_total files = 0) := by
      rintro ⟨-, h2⟩
      exact ht1 h2
    simp only [if_neg hA]
    norm_num
    simp only [if_neg hB, if_pos hm]

/-- Witness for total_size_stages on a single 5000-byte blob. -/
theorem total_size_stages_witness :
    (get_repo_statistics (.status 200 (some 1048576))
      (.status 200 [{ gitObjectType := "blob", size := 5000 }])
      (fun _ => none) (fun _ => none)).total_size = "1024" ∧
    (get_repo_statistics (.status 200 none)
      (.status 200 [{ gitObjectType := "blob", size := 5000 }])
      (fun _ => none) (fun _ => none)).total_size =
      format_size_in_kb (estimated_repo_size
        (metadata_total ([{ gitObjectType := "blob", size := 5000 }].filter
          (fun it => it.gitObjectType == "blob")))) :=
  total_size_stages [{ gitObjectType := "blob", size := 5000 }]
    (fun _ => none) (fun _ => none) (by decide)

/-- Invariant of the wait_for_rate_limit loop: a successful exit at some
iteration count i means every consultation in the while condition before
iteration i reported fewer than 10 remaining calls, the final consultation
reported at least 10, and the action trace is exactly i blocked iterations
(two consultations and one sleep until the reported reset) followed by the
passing consultation. -/
theorem wait_loop_spec (readings : Nat → Nat × Nat) :
    ∀ fuel k acts, wait_loop readings fuel k = some acts →
      ∃ i, 10 ≤ (readings (k + 2 * i)).1 ∧
        (∀ j, j < i → (readings (k + 2 * j)).1 < 10) ∧
        acts = traceFrom readings k i := by
  intro fuel
  induction fuel with
  | zero =>
    intro k acts h
    simp [wait_loop] at h
  | succ f ih =>
    intro k acts h
    unfold wait_loop at h
    by_cases hlt : (readings k).1 < 10
    · rw [if_pos hlt] at h
      cases hrec : wait_loop readings f (k + 2) with
      | none =>
        rw [hrec] at h
        exact absurd h (by simp)
      | some acts2 =>
        rw [hrec] at h
        obtain ⟨i, h1, h2, h3⟩ := ih (k + 2) acts2 hrec
        refine ⟨i + 1, ?_, ?_, ?_⟩
        · have he : k + 2 * (i + 1) = (k + 2) + 2 * i := by ring
          rw [he]
          exact h1
        · intro j hj
          cases j with
          | zero => simpa using hlt
          | succ j2 =>
            have he : k + 2 * (j2 + 1) = (k + 2) + 2 * j2 := by ring
            rw [he]
            exact h2 j2 (by omega)
        · have hacts : acts =
              QAction.consult (readings k).1 (readings k).2 ::
              QAction.consult (readings (k + 1)).1 (readings (k + 1)).2 ::
              QAction.sleepUntil (readings (k + 1)).2 :: acts2 :=
            Option.some.inj h.symm
          rw [hacts, h3]
          rfl
    · rw [if_neg hlt] at h
      refine ⟨0, ?_, ?_, ?_⟩
      · simpa using Nat.not_lt.mp hlt
      · intro j hj
        omega
      · exact Option.some.inj h.symm

/-- C9: when wait_for_rate_limit returns, the last quota consultation
reported at least 10 remaining calls; every earlier while-condition
consultation reported fewer than 10 (the caller stayed blocked); and the
whole trace consists only of quota consultations and sleeps until the
remotely reported reset timestamp — no other request is issued during the
blocked interval. -/
theorem wait_for_rate_limit_quota (readings : Nat → Nat × Nat) (fuel : Nat)
    (acts : List QAction) (h : wait_for_rate_limit readings fuel = some acts) :
    ∃ i, 10 ≤ (readings (2 * i)).1 ∧
      (∀ j, j < i → (readings (2 * j)).1 < 10) ∧
      acts = traceFrom readings 0 i := by
  have hs := wait_loop_spec readings fuel 0 acts h
  simpa using hs

/-- Witness for wait_for_rate_limit_quota on a quota of 20 remaining
calls: the loop exits at once with a single consultation. -/
theorem wait_for_rate_limit_quota_witness :
    ∃ i, 10 ≤ ((fun _ : Nat => ((20 : Nat), (5 : Nat))) (2 * i)).1 ∧
      (∀ j, j < i → ((fun _ : Nat => ((20 : Nat), (5 : Nat))) (2 * j)).1 < 10) ∧
      [QAction.consult 20 5] = traceFrom (fun _ => (20, 5)) 0 i :=
  wait_for_rate_limit_quota (fun _ => (20, 5)) 1 [QAction.consult 20 5] rfl

end Migrations
